import Mathlib

/-!
Shallow embedding of `src/klippy/extras/fd2hs.py` (class `FD2HS`, a DIY
filament width sensor module).  Machine floats of the source are modelled
as exact rationals; the emitted `M221 S<n>` extrusion-multiplier scripts
are modelled as the list of integer percentages emitted during a call.
-/

namespace FD2HS

/-- Source constant `MEASUREMENT_INTERVAL_MM = 5` (line 31). -/
def MEASUREMENT_INTERVAL_MM : ℚ := 5

/-- Source constant `MAX_SENSORS_TIME_DIFF = 0.01` (line 37). -/
def MAX_SENSORS_TIME_DIFF : ℚ := 1/100

/-- Source constant `FILAMENT_MAX_DIA = 3.0` (line 33). -/
def FILAMENT_MAX_DIA : ℚ := 3

/-- Source constant `FILAMENT_MIN_DIA = 1.0` (line 34). -/
def FILAMENT_MIN_DIA : ℚ := 1

/-- Source constant `FILAMENT_DEFAULT_NOMINAL_DIA = 1.75` (line 35). -/
def FILAMENT_DEFAULT_NOMINAL_DIA : ℚ := 7/4

/-- Python 3 `round` to an integer: round half to even (banker's rounding),
modelled on exact rationals. -/
def pyRound (q : ℚ) : ℤ :=
  let n := ⌊q⌋
  let r := q - n
  if r < 1/2 then n
  else if 1/2 < r then n + 1
  else if n % 2 = 0 then n else n + 1

/-- The configuration values read in `FD2HS.__init__` (lines 67-72) that the
runtime behaviour depends on. -/
structure Config where
  nominal_filament_dia : ℚ
  max_diameter : ℚ
  min_diameter : ℚ
  measurement_delay : ℚ
deriving DecidableEq

/-- Scheduling state of the extrude-factor update timer: `reactor.NOW`
(commanded to fire immediately), `reactor.NEVER` (stopped), or a concrete
wake time. -/
inductive Waketime where
  | now
  | never
  | at_time (t : ℚ)
deriving DecidableEq

/-- The mutable attributes of an `FD2HS` object that the modelled methods
read or write.  `filament_array` is the delay queue of
`[trigger_position, filamentWidth]` pairs (line 74-75); the hall-sensor
fields are `Option` because in the source they do not exist until the
corresponding callback has fired at least once. -/
structure State where
  filament_array : List (ℚ × ℚ)
  lastFilamentWidthReading : ℚ
  is_active : Bool
  timer : Waketime
  last_hall_1_read_time : Option ℚ
  last_hall_1_read_value : Option ℚ
  last_hall_2_read_time : Option ℚ
  last_hall_2_reading : Option ℚ
  array_changed : Bool
deriving DecidableEq

/-- `FD2HS.hall_1_callback` (lines 104-107): store the first channel's raw
reading and timestamp; nothing else. -/
def hall_1_callback (s : State) (read_time read_value : ℚ) : State :=
  { s with last_hall_1_read_time := some read_time,
           last_hall_1_read_value := some read_value }

/-- `FD2HS.hall_2_callback` (lines 109-116): store the second channel's raw
reading and timestamp, then, when the two channels' timestamps differ by
less than `MAX_SENSORS_TIME_DIFF`, overwrite `lastFilamentWidthReading`
with the arithmetic mean of the two raw readings.  Accessing a hall-1
attribute that was never written raises `AttributeError` in Python,
modelled as `none`; the attribute reads happen in source order (the
timestamp in the `abs` test, the value only inside the branch). -/
def hall_2_callback (s : State) (read_time read_value : ℚ) : Option State :=
  let s2 := { s with last_hall_2_read_time := some read_time,
                     last_hall_2_reading := some read_value }
  match s.last_hall_1_read_time with
  | none => none
  | some t1 =>
    if |read_time - t1| < MAX_SENSORS_TIME_DIFF then
      match s.last_hall_1_read_value with
      | none => none
      | some v1 =>
        some { s2 with lastFilamentWidthReading := (v1 + read_value) / 2 }
    else
      some s2

/-- `FD2HS.update_filament_array` (lines 128-145).  If the array is
non-empty, append `[last_epos + measurement_delay, lastFilamentWidthReading]`
only when the last entry's trigger position plus `MEASUREMENT_INTERVAL_MM`
has been reached; otherwise append the first entry unconditionally.
`save_array_to_file` (lines 118-126) is inert in the source (its body is a
broken hash-compare stub with no effect on any modelled attribute), so the
call at line 145 is modelled as a no-op. -/
def update_filament_array (cfg : Config) (s : State) (last_epos : ℚ) : State :=
  match s.filament_array.getLast? with
  | some last_entry =>
    let next_reading_position := last_entry.1 + MEASUREMENT_INTERVAL_MM
    if next_reading_position ≤ last_epos + cfg.measurement_delay then
      { s with
        filament_array :=
          s.filament_array ++
            [(last_epos + cfg.measurement_delay, s.lastFilamentWidthReading)],
        array_changed := true }
    else s
  | none =>
    { s with
      filament_array :=
        [(cfg.measurement_delay + last_epos, s.lastFilamentWidthReading)],
      array_changed := true }

/-- The filament-presence test of `extrude_factor_update_event` line 154:
`self.lastFilamentWidthReading > 0.5`. -/
def filament_present (s : State) : Bool := 1/2 < s.lastFilamentWidthReading

/-- `FD2HS.extrude_factor_update_event` (lines 147-172), one controller tick
at extruder position `last_epos`: update the filament array, then if the
latest width reading exceeds 0.5 and the head entry is due
(`trigger_position <= last_epos`) pop it and emit either the inverse-square
percentage (in-range width) or 100 (out-of-range width); if the reading is
at most 0.5 emit 100 and clear the array.  Returns the new state and the
list of emitted `M221` percentages (the source also returns
`eventtime + 1` to reschedule itself, which carries no state). -/
def extrude_factor_update_event (cfg : Config) (s : State) (last_epos : ℚ) :
    State × List ℤ :=
  let s1 := update_filament_array cfg s last_epos
  if 1/2 < s1.lastFilamentWidthReading then
    match s1.filament_array with
    | [] => (s1, [])
    | item :: rest =>
      if item.1 ≤ last_epos then
        let filament_width := item.2
        if filament_width ≤ cfg.max_diameter ∧
            cfg.min_diameter ≤ filament_width then
          ({ s1 with filament_array := rest },
            [pyRound (cfg.nominal_filament_dia ^ 2 / filament_width ^ 2 * 100)])
        else
          ({ s1 with filament_array := rest }, [100])
      else (s1, [])
  else
    ({ s1 with filament_array := [] }, [100])

/-- Response of the `QUERY_FILAMENT_WIDTH` command. -/
inductive QueryResponse where
  | dia (d : ℚ)
  | notPresent
deriving DecidableEq

/-- `FD2HS.cmd_M407` (lines 174-181): respond with the last width reading
when it is positive, else report absence; the object state is returned
unchanged (the method only builds a response string). -/
def cmd_M407 (s : State) : QueryResponse × State :=
  (if 0 < s.lastFilamentWidthReading
    then QueryResponse.dia s.lastFilamentWidthReading
    else QueryResponse.notPresent, s)

/-- `FD2HS.cmd_ClearFilamentArray` (lines 183-187): clear the array and emit
`M221 S100`. -/
def cmd_ClearFilamentArray (s : State) : State × List ℤ :=
  ({ s with filament_array := [] }, [100])

/-- `FD2HS.cmd_M405` (lines 189-198), enable: when already active only an
informational response is produced; otherwise activate and command the
timer to fire now.  Nothing is emitted. -/
def cmd_M405 (s : State) : State × List ℤ :=
  if s.is_active then (s, [])
  else ({ s with is_active := true, timer := Waketime.now }, [])

/-- `FD2HS.cmd_M406` (lines 200-213), disable: when already inactive only an
informational response is produced; otherwise deactivate, stop the timer
(`reactor.NEVER`), clear the filament array and emit `M221 S100` once. -/
def cmd_M406 (s : State) : State × List ℤ :=
  if s.is_active then
    ({ s with is_active := false, timer := Waketime.never,
              filament_array := [] }, [100])
  else (s, [])

/-- Raw configuration options consumed by `FD2HS.__init__`, together with
whether the configured dump-file path can be opened for append. -/
structure RawConfig where
  dump_file_openable : Bool
  hall_sensor_1 : String
  hall_sensor_2 : String
  nominal_filament_diameter : ℚ
  max_filament_diameter : ℚ
  min_filament_diameter : ℚ
  measurement_delay : Option ℚ
deriving DecidableEq

/-- Outcome of running `FD2HS.__init__`. -/
inductive InitOutcome where
  | ok
  | config_error (msg : String)
  | name_error (ident : String)
deriving DecidableEq

/-- `FD2HS.__init__` (lines 41-94) as the source executes: check the dump
file path (lines 46-51), check the two hall-sensor pins are distinct
(lines 53-56), then at line 59 evaluate `printer.lookup_object(...)` where
the bare name `printer` is undefined (every other line uses
`self.printer`), so execution raises `NameError` before the diameter and
`measurement_delay` option checks of lines 67-72 are ever reached.
(Moreover, the module body itself has syntax errors at lines 118 and 122,
so in reality the module cannot even be imported.) -/
def FD2HS_init (c : RawConfig) : InitOutcome :=
  if ¬ c.dump_file_openable then
    InitOutcome.config_error "DUMP file error"
  else if c.hall_sensor_1 = c.hall_sensor_2 then
    InitOutcome.config_error
      "Cant use the same pin for hall_sensor_1 and hall_sensor_2"
  else
    InitOutcome.name_error "printer"

/-- Queue spacing predicate: consecutive entries' trigger positions differ
by at least `MEASUREMENT_INTERVAL_MM`. -/
def spacedb : List (ℚ × ℚ) → Bool
  | a :: b :: rest =>
    decide (a.1 + MEASUREMENT_INTERVAL_MM ≤ b.1) && spacedb (b :: rest)
  | _ => true

/-- Queue order predicate: trigger positions strictly increase. -/
def ascendb : List (ℚ × ℚ) → Bool
  | a :: b :: rest => decide (a.1 < b.1) && ascendb (b :: rest)
  | _ => true

/-- A sequence of controller-side enqueues: for each `(epos, reading)` pair,
set the sampler's latest reading and run `update_filament_array` at that
extruder position. -/
def enqueue_run (cfg : Config) (s : State) (inputs : List (ℚ × ℚ)) : State :=
  inputs.foldl
    (fun acc pr =>
      update_filament_array cfg { acc with lastFilamentWidthReading := pr.2 }
        pr.1) s

/-- A concrete configuration with the default diameters and a 50 mm
measurement delay. -/
def cfg0 : Config :=
  { nominal_filament_dia := 7/4, max_diameter := 3, min_diameter := 1,
    measurement_delay := 50 }

/-- A concrete freshly-initialised state (empty queue, reading 0, active). -/
def st0 : State :=
  { filament_array := [], lastFilamentWidthReading := 0, is_active := true,
    timer := Waketime.at_time 0, last_hall_1_read_time := none,
    last_hall_1_read_value := none, last_hall_2_read_time := none,
    last_hall_2_reading := none, array_changed := false }

end FD2HS

namespace FD2HS

/-- `update_filament_array` never changes the latest width reading. -/
theorem update_lastReading (cfg : Config) (s : State) (e : ℚ) :
    (update_filament_array cfg s e).lastFilamentWidthReading
      = s.lastFilamentWidthReading := by
  unfold update_filament_array
  rcases s.filament_array.getLast? with _ | la
  · rfl
  · dsimp only
    split <;> rfl

/-- `update_filament_array` either leaves the queue unchanged or appends one
entry with trigger position `last_epos + measurement_delay` carrying the
current width reading. -/
theorem update_array_cases (cfg : Config) (s : State) (e : ℚ) :
    (update_filament_array cfg s e).filament_array = s.filament_array
    ∨ (update_filament_array cfg s e).filament_array
        = s.filament_array
            ++ [(e + cfg.measurement_delay, s.lastFilamentWidthReading)] := by
  unfold update_filament_array
  rcases hl : s.filament_array.getLast? with _ | la
  · have hnil : s.filament_array = [] := by
      simpa using hl
    right
    dsimp only
    rw [hnil]
    simp [add_comm]
  · dsimp only
    split
    · right; rfl
    · left; rfl

/-- Tick behaviour, filament-absent branch (line 169-171): when the latest
width reading is at most 0.5 the tick clears the array and emits 100. -/
theorem tick_absent (cfg : Config) (s : State) (epos : ℚ)
    (hp : ¬ 1/2 < s.lastFilamentWidthReading) :
    extrude_factor_update_event cfg s epos
      = ({ update_filament_array cfg s epos with filament_array := [] },
         [100]) := by
  simp only [extrude_factor_update_event, update_lastReading]
  rw [if_neg hp]

/-- Tick behaviour, filament present but empty queue: nothing emitted. -/
theorem tick_empty (cfg : Config) (s : State) (epos : ℚ)
    (hp : 1/2 < s.lastFilamentWidthReading)
    (hq : (update_filament_array cfg s epos).filament_array = []) :
    extrude_factor_update_event cfg s epos
      = (update_filament_array cfg s epos, []) := by
  simp only [extrude_factor_update_event, update_lastReading]
  rw [if_pos hp, hq]

/-- Tick behaviour, filament present, head entry not yet due: state and
emission untouched. -/
theorem tick_not_due (cfg : Config) (s : State) (epos : ℚ)
    (item : ℚ × ℚ) (rest : List (ℚ × ℚ))
    (hp : 1/2 < s.lastFilamentWidthReading)
    (hq : (update_filament_array cfg s epos).filament_array = item :: rest)
    (hnd : ¬ item.1 ≤ epos) :
    extrude_factor_update_event cfg s epos
      = (update_filament_array cfg s epos, []) := by
  simp only [extrude_factor_update_event, update_lastReading]
  rw [if_pos hp, hq]
  dsimp only
  rw [if_neg hnd]

/-- Tick behaviour, filament present, head entry due and within the
diameter bounds: pop it and emit the inverse-square percentage. -/
theorem tick_pop_in_range (cfg : Config) (s : State) (epos : ℚ)
    (item : ℚ × ℚ) (rest : List (ℚ × ℚ))
    (hp : 1/2 < s.lastFilamentWidthReading)
    (hq : (update_filament_array cfg s epos).filament_array = item :: rest)
    (hdue : item.1 ≤ epos)
    (hin : item.2 ≤ cfg.max_diameter ∧ cfg.min_diameter ≤ item.2) :
    extrude_factor_update_event cfg s epos
      = ({ update_filament_array cfg s epos with filament_array := rest },
         [pyRound (cfg.nominal_filament_dia ^ 2 / item.2 ^ 2 * 100)]) := by
  simp only [extrude_factor_update_event, update_lastReading]
  rw [if_pos hp, hq]
  dsimp only
  rw [if_pos hdue, if_pos hin]

/-- Tick behaviour, filament present, head entry due but outside the
diameter bounds: pop it and emit the neutral 100. -/
theorem tick_pop_out_range (cfg : Config) (s : State) (epos : ℚ)
    (item : ℚ × ℚ) (rest : List (ℚ × ℚ))
    (hp : 1/2 < s.lastFilamentWidthReading)
    (hq : (update_filament_array cfg s epos).filament_array = item :: rest)
    (hdue : item.1 ≤ epos)
    (hout : ¬ (item.2 ≤ cfg.max_diameter ∧ cfg.min_diameter ≤ item.2)) :
    extrude_factor_update_event cfg s epos
      = ({ update_filament_array cfg s epos with filament_array := rest },
         [100]) := by
  simp only [extrude_factor_update_event, update_lastReading]
  rw [if_pos hp, hq]
  dsimp only
  rw [if_pos hdue, if_neg hout]

/-- A controller tick never changes the latest width reading. -/
theorem tick_lastReading (cfg : Config) (s : State) (epos : ℚ) :
    (extrude_factor_update_event cfg s epos).1.lastFilamentWidthReading
      = s.lastFilamentWidthReading := by
  by_cases hp : 1/2 < s.lastFilamentWidthReading
  · rcases hq : (update_filament_array cfg s epos).filament_array with _ | ⟨item, rest⟩
    · rw [tick_empty cfg s epos hp hq, update_lastReading]
    · by_cases hdue : item.1 ≤ epos
      · by_cases hin : item.2 ≤ cfg.max_diameter ∧ cfg.min_diameter ≤ item.2
        · rw [tick_pop_in_range cfg s epos item rest hp hq hdue hin]
          exact update_lastReading cfg s epos
        · rw [tick_pop_out_range cfg s epos item rest hp hq hdue hin]
          exact update_lastReading cfg s epos
      · rw [tick_not_due cfg s epos item rest hp hq hdue, update_lastReading]
  · rw [tick_absent cfg s epos hp]
    exact update_lastReading cfg s epos

/-- Appending an entry whose trigger position is at least
`MEASUREMENT_INTERVAL_MM` past the current last entry preserves the
spacing predicate. -/
theorem spacedb_append (l : List (ℚ × ℚ)) (x la : ℚ × ℚ)
    (hs : spacedb l = true) (hl : l.getLast? = some la)
    (hx : la.1 + MEASUREMENT_INTERVAL_MM ≤ x.1) :
    spacedb (l ++ [x]) = true := by
  induction l with
  | nil => simp at hl
  | cons a t ih =>
    cases t with
    | nil =>
      simp at hl
      subst hl
      simp [spacedb, hx]
    | cons b t2 =>
      rw [List.getLast?_cons_cons] at hl
      simp only [spacedb, Bool.and_eq_true, decide_eq_true_eq] at hs
      have htail : spacedb ((b :: t2) ++ [x]) = true := ih hs.2 hl
      simp only [List.cons_append] at htail ⊢
      simp [spacedb, Bool.and_eq_true, decide_eq_true_eq, hs.1]
      exact htail

/-- One `update_filament_array` call preserves the spacing predicate. -/
theorem update_spacedb (cfg : Config) (s : State) (e : ℚ)
    (h : spacedb s.filament_array = true) :
    spacedb (update_filament_array cfg s e).filament_array = true := by
  unfold update_filament_array
  rcases hl : s.filament_array.getLast? with _ | la
  · dsimp only
    simp [spacedb]
  · dsimp only
    split
    · rename_i hcond
      exact spacedb_append s.filament_array _ la h hl hcond
    · exact h

/-- Every sequence of enqueues preserves the spacing predicate. -/
theorem enqueue_run_spacedb (cfg : Config) (s : State)
    (inputs : List (ℚ × ℚ)) (h : spacedb s.filament_array = true) :
    spacedb (enqueue_run cfg s inputs).filament_array = true := by
  induction inputs generalizing s with
  | nil => exact h
  | cons p t ih =>
    exact ih (update_filament_array cfg
        { s with lastFilamentWidthReading := p.2 } p.1) (update_spacedb _ _ _ h)

/-- Spacing by `MEASUREMENT_INTERVAL_MM` implies strictly ascending trigger
positions. -/
theorem spacedb_ascendb : ∀ l : List (ℚ × ℚ), spacedb l = true → ascendb l = true
  | [], _ => rfl
  | [_], _ => rfl
  | a :: b :: t, h => by
    simp only [spacedb, Bool.and_eq_true, decide_eq_true_eq] at h
    have h5 : a.1 + 5 ≤ b.1 := by
      simpa [MEASUREMENT_INTERVAL_MM] using h.1
    simp only [ascendb, Bool.and_eq_true, decide_eq_true_eq]
    exact ⟨by linarith, spacedb_ascendb (b :: t) h.2⟩

/-- Claim C1: for every dequeued queue entry whose diameter lies within
`[min_diameter, max_diameter]` (inclusive), while filament is considered
present, the controller tick emits exactly the multiplier
`round(nominal_diameter^2 / diameter^2 * 100)`, which equals
`round((nominal/diameter)^2 * 100)`, for that entry. -/
theorem C1_in_range_multiplier (cfg : Config) (s : State) (epos tp d : ℚ)
    (rest : List (ℚ × ℚ))
    (hp : 1/2 < s.lastFilamentWidthReading)
    (hq : (update_filament_array cfg s epos).filament_array = (tp, d) :: rest)
    (hdue : tp ≤ epos)
    (hmin : cfg.min_diameter ≤ d) (hmax : d ≤ cfg.max_diameter) :
    (extrude_factor_update_event cfg s epos).2
      = [pyRound (cfg.nominal_filament_dia ^ 2 / d ^ 2 * 100)]
    ∧ pyRound (cfg.nominal_filament_dia ^ 2 / d ^ 2 * 100)
      = pyRound ((cfg.nominal_filament_dia / d) ^ 2 * 100) := by
  constructor
  · rw [tick_pop_in_range cfg s epos (tp, d) rest hp hq hdue ⟨hmax, hmin⟩]
  · rw [div_pow]

/-- Witness for C1 at a concrete input: nominal 1.75, queued width 1.5,
giving the multiplier round((1.75/1.5)^2 * 100) = 136. -/
theorem C1_witness :
    (extrude_factor_update_event cfg0
        { st0 with filament_array := [(10, 3/2)],
                   lastFilamentWidthReading := 3/2 } 10).2 = [136] := by
  have h := C1_in_range_multiplier cfg0
      { st0 with filament_array := [(10, 3/2)], lastFilamentWidthReading := 3/2 }
      10 10 (3/2) [(60, 3/2)]
      (by norm_num [st0])
      (by norm_num [update_filament_array, cfg0, st0, MEASUREMENT_INTERVAL_MM])
      (by norm_num) (by norm_num [cfg0]) (by norm_num [cfg0])
  rw [h.1]
  norm_num [pyRound, cfg0]

/-- Claim C2: for every dequeued queue entry whose diameter lies outside
`[min_diameter, max_diameter]`, the tick emits the neutral multiplier 100
(the entry is popped, and the model is total, so no exception arises). -/
theorem C2_out_of_range_neutral (cfg : Config) (s : State) (epos tp d : ℚ)
    (rest : List (ℚ × ℚ))
    (hp : 1/2 < s.lastFilamentWidthReading)
    (hq : (update_filament_array cfg s epos).filament_array = (tp, d) :: rest)
    (hdue : tp ≤ epos)
    (hout : d < cfg.min_diameter ∨ cfg.max_diameter < d) :
    (extrude_factor_update_event cfg s epos).2 = [100]
    ∧ (extrude_factor_update_event cfg s epos).1.filament_array = rest := by
  have hneg : ¬ ((tp, d).2 ≤ cfg.max_diameter ∧ cfg.min_diameter ≤ (tp, d).2) := by
    rcases hout with h1 | h1
    · intro hc
      exact absurd h1 (not_lt.mpr hc.2)
    · intro hc
      exact absurd h1 (not_lt.mpr hc.1)
  rw [tick_pop_out_range cfg s epos (tp, d) rest hp hq hdue hneg]
  exact ⟨rfl, rfl⟩

/-- Witness for C2 at a concrete input: queued width 3.5 exceeds the 3.0
maximum, so the tick emits 100. -/
theorem C2_witness :
    (extrude_factor_update_event cfg0
        { st0 with filament_array := [(10, 7/2)],
                   lastFilamentWidthReading := 3/2 } 10).2 = [100] := by
  exact (C2_out_of_range_neutral cfg0
      { st0 with filament_array := [(10, 7/2)], lastFilamentWidthReading := 3/2 }
      10 10 (7/2) [(60, 3/2)]
      (by norm_num [st0])
      (by norm_num [update_filament_array, cfg0, st0, MEASUREMENT_INTERVAL_MM])
      (by norm_num)
      (Or.inr (by norm_num [cfg0]))).1

/-- Claim C3: after any sequence of enqueues (starting from any queue
already satisfying the spacing predicate, in particular the empty one),
consecutive retained entries are spaced by at least
`MEASUREMENT_INTERVAL_MM` and the queue is strictly ascending in
trigger position; an enqueue whose new trigger position would sit closer
than `MEASUREMENT_INTERVAL_MM` to the last entry performs no insertion and
no other side effect (the state is returned unchanged).  Monotonicity of
the extruder positions is not even needed: the guard alone enforces the
spacing. -/
theorem C3_queue_spacing (cfg : Config) (s : State)
    (inputs : List (ℚ × ℚ)) (epos : ℚ)
    (h0 : spacedb s.filament_array = true) :
    (spacedb (enqueue_run cfg s inputs).filament_array = true
     ∧ ascendb (enqueue_run cfg s inputs).filament_array = true)
    ∧ (∀ la : ℚ × ℚ, s.filament_array.getLast? = some la →
        epos + cfg.measurement_delay < la.1 + MEASUREMENT_INTERVAL_MM →
        update_filament_array cfg s epos = s) := by
  refine ⟨⟨enqueue_run_spacedb cfg s inputs h0,
      spacedb_ascendb _ (enqueue_run_spacedb cfg s inputs h0)⟩, ?_⟩
  intro la hla hlt
  unfold update_filament_array
  rw [hla]
  dsimp only
  rw [if_neg (not_le.mpr hlt)]

/-- Witness for C3: enqueues at extruder positions 0 and 2 with interval 5
(the spec scenario); the spacing predicate holds afterwards, and the
second enqueue, taken on its own against the queue left by the first, is
rejected without any state change. -/
theorem C3_witness :
    spacedb (enqueue_run cfg0 st0 [(0, 3/2), (2, 3/2)]).filament_array = true
    ∧ update_filament_array cfg0
        { st0 with filament_array := [(50, 3/2)],
                   lastFilamentWidthReading := 3/2 } 2
      = { st0 with filament_array := [(50, 3/2)],
                   lastFilamentWidthReading := 3/2 } := by
  constructor
  · exact (C3_queue_spacing cfg0 st0 [(0, 3/2), (2, 3/2)] 0 (by rfl)).1.1
  · exact (C3_queue_spacing cfg0
      { st0 with filament_array := [(50, 3/2)], lastFilamentWidthReading := 3/2 }
      [] 2 (by rfl)).2 (50, 3/2) (by rfl)
      (by norm_num [cfg0, MEASUREMENT_INTERVAL_MM])

/-- Claim C4 as amended: an enqueue at position `p` stores trigger position
`p + measurement_delay`, and while filament is considered present
(reading above 0.5) a not-yet-due head entry is never removed and nothing
is emitted; moreover, under presence, if the head entry did get popped then
it was due. -/
theorem C4_delay_correctness (cfg : Config) (s : State) (epos : ℚ) :
    ((update_filament_array cfg s epos).filament_array = s.filament_array
     ∨ (update_filament_array cfg s epos).filament_array
         = s.filament_array
             ++ [(epos + cfg.measurement_delay, s.lastFilamentWidthReading)])
    ∧ (1/2 < s.lastFilamentWidthReading →
        ∀ tp d : ℚ, ∀ rest : List (ℚ × ℚ),
          (update_filament_array cfg s epos).filament_array = (tp, d) :: rest →
          ((epos < tp →
            (extrude_factor_update_event cfg s epos).1.filament_array
              = (tp, d) :: rest
            ∧ (extrude_factor_update_event cfg s epos).2 = [])
           ∧ ((extrude_factor_update_event cfg s epos).1.filament_array = rest →
              tp ≤ epos))) := by
  refine ⟨update_array_cases cfg s epos, ?_⟩
  intro hp tp d rest hq
  constructor
  · intro hnd
    rw [tick_not_due cfg s epos (tp, d) rest hp hq (not_le.mpr hnd)]
    exact ⟨hq, rfl⟩
  · intro hpop
    by_contra hnd
    rw [tick_not_due cfg s epos (tp, d) rest hp hq hnd] at hpop
    dsimp only at hpop
    rw [hq] at hpop
    exact List.cons_ne_self (tp, d) rest hpop

/-- Witness for C4: with a pending entry at trigger 100 and the extruder at
position 10 (filament present), the tick removes nothing and emits
nothing. -/
theorem C4_witness :
    (extrude_factor_update_event cfg0
        { st0 with filament_array := [(100, 3/2)],
                   lastFilamentWidthReading := 3/2 } 10).1.filament_array
      = (100, 3/2) :: []
    ∧ (extrude_factor_update_event cfg0
        { st0 with filament_array := [(100, 3/2)],
                   lastFilamentWidthReading := 3/2 } 10).2 = [] := by
  exact ((C4_delay_correctness cfg0
      { st0 with filament_array := [(100, 3/2)], lastFilamentWidthReading := 3/2 }
      10).2 (by norm_num [st0]) 100 (3/2) []
      (by norm_num [update_filament_array, cfg0, st0, MEASUREMENT_INTERVAL_MM])).1
      (by norm_num)

/-- Counterexample to claim C4 as stated: with filament absent
(reading 0.2) and a head entry whose trigger position 100 is far beyond
the current extruder position 10 (so the entry is not yet due), the tick
nonetheless removes the entry (it clears the whole queue) and emits the
multiplier 100. -/
theorem C4_counterexample :
    (update_filament_array cfg0
        { st0 with filament_array := [(100, 7/4)],
                   lastFilamentWidthReading := 1/5 } 10).filament_array
      = [(100, 7/4)]
    ∧ (10 : ℚ) < 100
    ∧ (extrude_factor_update_event cfg0
        { st0 with filament_array := [(100, 7/4)],
                   lastFilamentWidthReading := 1/5 } 10).1.filament_array = []
    ∧ (extrude_factor_update_event cfg0
        { st0 with filament_array := [(100, 7/4)],
                   lastFilamentWidthReading := 1/5 } 10).2 = [100] := by
  refine ⟨?_, by norm_num, ?_⟩
  · norm_num [update_filament_array, cfg0, st0, MEASUREMENT_INTERVAL_MM]
  · rw [tick_absent cfg0 _ 10 (by norm_num [st0])]
    exact ⟨rfl, rfl⟩

/-- Claim C5: on every tick where the latest width reading is below the
presence threshold 0.5, the tick emits the neutral multiplier 100 and
leaves the delay queue empty, whatever entries were pending or due. -/
theorem C5_absent_clears (cfg : Config) (s : State) (epos : ℚ)
    (h : s.lastFilamentWidthReading < 1/2) :
    (extrude_factor_update_event cfg s epos).1.filament_array = []
    ∧ (extrude_factor_update_event cfg s epos).2 = [100] := by
  rw [tick_absent cfg s epos (not_lt.mpr h.le)]
  exact ⟨rfl, rfl⟩

/-- Witness for C5: reading 0.2 with two pending entries, one of them due;
the tick still yields multiplier 100 and an empty queue. -/
theorem C5_witness :
    (extrude_factor_update_event cfg0
        { st0 with filament_array := [(1, 7/4), (6, 7/4)],
                   lastFilamentWidthReading := 1/5 } 100).1.filament_array = []
    ∧ (extrude_factor_update_event cfg0
        { st0 with filament_array := [(1, 7/4), (6, 7/4)],
                   lastFilamentWidthReading := 1/5 } 100).2 = [100] := by
  exact C5_absent_clears cfg0
    { st0 with filament_array := [(1, 7/4), (6, 7/4)],
               lastFilamentWidthReading := 1/5 } 100 (by norm_num [st0])

/-- Claim C6: disabling from the active state deactivates, stops the timer,
clears the queue and emits 100 exactly once; disabling when already
inactive changes nothing and emits nothing; a subsequent enable leaves the
queue empty (nothing is restored or replayed) and emits nothing. -/
theorem C6_disable (s : State) (h : s.is_active = true) :
    ((cmd_M406 s).1.is_active = false
     ∧ (cmd_M406 s).1.timer = Waketime.never
     ∧ (cmd_M406 s).1.filament_array = []
     ∧ (cmd_M406 s).2 = [100])
    ∧ (∀ s2 : State, s2.is_active = false → cmd_M406 s2 = (s2, []))
    ∧ ((cmd_M405 (cmd_M406 s).1).1.filament_array = []
       ∧ (cmd_M405 (cmd_M406 s).1).2 = []) := by
  refine ⟨?_, ?_, ?_⟩
  · simp [cmd_M406, h]
  · intro s2 h2
    simp [cmd_M406, h2]
  · simp [cmd_M406, cmd_M405, h]

/-- Witness for C6 at a concrete active state holding one queued entry. -/
theorem C6_witness :
    (cmd_M406 { st0 with filament_array := [(10, 3/2)] }).1.is_active = false
    ∧ (cmd_M406 { st0 with filament_array := [(10, 3/2)] }).1.timer
        = Waketime.never
    ∧ (cmd_M406 { st0 with filament_array := [(10, 3/2)] }).1.filament_array = []
    ∧ (cmd_M406 { st0 with filament_array := [(10, 3/2)] }).2 = [100]
    ∧ cmd_M406 (cmd_M406 { st0 with filament_array := [(10, 3/2)] }).1
        = ((cmd_M406 { st0 with filament_array := [(10, 3/2)] }).1, [])
    ∧ (cmd_M405 (cmd_M406
        { st0 with filament_array := [(10, 3/2)] }).1).1.filament_array = [] := by
  have h := C6_disable { st0 with filament_array := [(10, 3/2)] } (by rfl)
  exact ⟨h.1.1, h.1.2.1, h.1.2.2.1, h.1.2.2.2, h.2.1 _ h.1.1, h.2.2.1⟩

/-- Claim C7 as amended: the query reports the latest diameter estimate
exactly when the estimate is strictly positive — a strictly weaker
condition than the controller's presence test `reading > 0.5` — reports
absence otherwise, and mutates no state. -/
theorem C7_query_threshold (s : State) :
    ((cmd_M407 s).1 = QueryResponse.dia s.lastFilamentWidthReading
      ↔ 0 < s.lastFilamentWidthReading)
    ∧ (s.lastFilamentWidthReading ≤ 0 →
        (cmd_M407 s).1 = QueryResponse.notPresent)
    ∧ (cmd_M407 s).2 = s := by
  by_cases h : 0 < s.lastFilamentWidthReading
  · refine ⟨⟨fun _ => h, fun _ => ?_⟩, fun hle => absurd h (not_lt.mpr hle), rfl⟩
    simp [cmd_M407, h]
  · refine ⟨⟨fun hc => ?_, fun hc => absurd hc h⟩, fun _ => ?_, rfl⟩
    · rw [cmd_M407, if_neg h] at hc
      exact absurd hc (by simp)
    · rw [cmd_M407, if_neg h]

/-- Witness for C7 (amended) at a concrete positive reading. -/
theorem C7_witness :
    (cmd_M407 { st0 with lastFilamentWidthReading := 3/2 }).1
      = QueryResponse.dia
          ({ st0 with lastFilamentWidthReading := 3/2 } :
            State).lastFilamentWidthReading
    ∧ (cmd_M407 { st0 with lastFilamentWidthReading := 3/2 }).2
      = { st0 with lastFilamentWidthReading := 3/2 } := by
  refine ⟨(C7_query_threshold
      { st0 with lastFilamentWidthReading := 3/2 }).1.mpr (by norm_num [st0]),
    (C7_query_threshold { st0 with lastFilamentWidthReading := 3/2 }).2.2⟩

/-- Counterexample to claim C7 as stated: at reading 0.2 the query reports
the diameter even though the controller's presence test (line 154,
`> 0.5`) considers filament absent — the two thresholds differ. -/
theorem C7_counterexample :
    (cmd_M407 { st0 with lastFilamentWidthReading := 1/5 }).1
      = QueryResponse.dia (1/5)
    ∧ filament_present { st0 with lastFilamentWidthReading := 1/5 } = false := by
  constructor
  · norm_num [cmd_M407, st0]
  · norm_num [filament_present, st0]

/-- Claim C8 as amended: on a tick where filament is considered present,
at most one entry is removed (the result queue is the post-enqueue queue
or its tail) and at most one multiplier is emitted; with an empty queue,
or a head entry that is not yet due, nothing is emitted at all. -/
theorem C8_single_pop (cfg : Config) (s : State) (epos : ℚ)
    (hp : 1/2 < s.lastFilamentWidthReading) :
    ((extrude_factor_update_event cfg s epos).1.filament_array
        = (update_filament_array cfg s epos).filament_array
     ∨ (extrude_factor_update_event cfg s epos).1.filament_array
        = (update_filament_array cfg s epos).filament_array.tail)
    ∧ (extrude_factor_update_event cfg s epos).2.length ≤ 1
    ∧ ((update_filament_array cfg s epos).filament_array = [] →
        (extrude_factor_update_event cfg s epos).2 = [])
    ∧ (∀ item : ℚ × ℚ, ∀ rest : List (ℚ × ℚ),
        (update_filament_array cfg s epos).filament_array = item :: rest →
        epos < item.1 →
        (extrude_factor_update_event cfg s epos).2 = []) := by
  rcases hq : (update_filament_array cfg s epos).filament_array
      with _ | ⟨item, rest⟩
  · rw [tick_empty cfg s epos hp hq]
    exact ⟨Or.inl hq, by norm_num, fun _ => rfl,
      fun item2 rest2 hc _ => absurd hc (by simp)⟩
  · by_cases hdue : item.1 ≤ epos
    · by_cases hin : item.2 ≤ cfg.max_diameter ∧ cfg.min_diameter ≤ item.2
      · rw [tick_pop_in_range cfg s epos item rest hp hq hdue hin]
        refine ⟨Or.inr rfl, by norm_num, fun hc => absurd hc (by simp), ?_⟩
        intro item2 rest2 hc hnd
        injection hc with h1 h2
        exact absurd hnd (not_lt.mpr (h1 ▸ hdue))
      · rw [tick_pop_out_range cfg s epos item rest hp hq hdue hin]
        refine ⟨Or.inr rfl, by norm_num, fun hc => absurd hc (by simp), ?_⟩
        intro item2 rest2 hc hnd
        injection hc with h1 h2
        exact absurd hnd (not_lt.mpr (h1 ▸ hdue))
    · rw [tick_not_due cfg s epos item rest hp hq hdue]
      exact ⟨Or.inl hq, by norm_num, fun _ => rfl, fun _ _ _ _ => rfl⟩

/-- Witness for C8: filament present, two due entries plus a freshly
enqueued one; the tick pops exactly the head and emits one multiplier. -/
theorem C8_witness :
    ((extrude_factor_update_event cfg0
        { st0 with filament_array := [(1, 7/4), (6, 7/4)],
                   lastFilamentWidthReading := 3/2 } 100).1.filament_array
       = (update_filament_array cfg0
           { st0 with filament_array := [(1, 7/4), (6, 7/4)],
                      lastFilamentWidthReading := 3/2 } 100).filament_array
     ∨ (extrude_factor_update_event cfg0
        { st0 with filament_array := [(1, 7/4), (6, 7/4)],
                   lastFilamentWidthReading := 3/2 } 100).1.filament_array
       = (update_filament_array cfg0
           { st0 with filament_array := [(1, 7/4), (6, 7/4)],
                      lastFilamentWidthReading := 3/2 } 100).filament_array.tail)
    ∧ (extrude_factor_update_event cfg0
        { st0 with filament_array := [(1, 7/4), (6, 7/4)],
                   lastFilamentWidthReading := 3/2 } 100).2.length ≤ 1 := by
  have h := C8_single_pop cfg0
      { st0 with filament_array := [(1, 7/4), (6, 7/4)],
                 lastFilamentWidthReading := 3/2 } 100 (by norm_num [st0])
  exact ⟨h.1, h.2.1⟩

/-- Counterexample to claim C8 as stated: with filament absent (reading
0.2), a tick at position 100 first enqueues a third entry and then clears
all three at once — more than one entry removed in a single tick — while
emitting the multiplier 100. -/
theorem C8_counterexample :
    (update_filament_array cfg0
        { st0 with filament_array := [(1, 7/4), (6, 7/4)],
                   lastFilamentWidthReading := 1/5 } 100).filament_array.length
      = 3
    ∧ (extrude_factor_update_event cfg0
        { st0 with filament_array := [(1, 7/4), (6, 7/4)],
                   lastFilamentWidthReading := 1/5 } 100).1.filament_array = []
    ∧ (extrude_factor_update_event cfg0
        { st0 with filament_array := [(1, 7/4), (6, 7/4)],
                   lastFilamentWidthReading := 1/5 } 100).2 = [100] := by
  refine ⟨?_, ?_⟩
  · norm_num [update_filament_array, cfg0, st0, MEASUREMENT_INTERVAL_MM]
  · rw [tick_absent cfg0 _ 100 (by norm_num [st0])]
    exact ⟨rfl, rfl⟩

/-- Claim C9 (code bug): on a fully valid configuration (`DUMP_FILE` path
openable, distinct hall-sensor pins, default diameters, positive
measurement delay) `FD2HS.__init__` does not complete: it stops with
`NameError` at line 59 (`printer.lookup_object` with `printer` undefined),
so the diameter-bound and `measurement_delay` checks of lines 67-72 are
unreachable, and construction never succeeds. -/
theorem C9_init_never_succeeds :
    FD2HS_init
        { dump_file_openable := true, hall_sensor_1 := "PA1",
          hall_sensor_2 := "PA2", nominal_filament_diameter := 7/4,
          max_filament_diameter := 3, min_filament_diameter := 1,
          measurement_delay := some 50 }
      = InitOutcome.name_error "printer"
    ∧ FD2HS_init
        { dump_file_openable := true, hall_sensor_1 := "PA1",
          hall_sensor_2 := "PA2", nominal_filament_diameter := 7/4,
          max_filament_diameter := 3, min_filament_diameter := 1,
          measurement_delay := some 50 }
      ≠ InitOutcome.ok := by
  constructor
  · simp [FD2HS_init]
  · simp [FD2HS_init]

/-- Claim C10: the shared width estimate is written only by the second
channel's callback — the first channel's callback, a controller tick, and
every command leave it unchanged — and a successful second-channel
callback sets it to the mean of the two raw readings exactly when the two
timestamps differ by less than `MAX_SENSORS_TIME_DIFF`, leaving it at its
previous value otherwise. -/
theorem C10_single_writer (cfg : Config) (s : State) (t v epos t1 v1 : ℚ) :
    (hall_1_callback s t v).lastFilamentWidthReading
      = s.lastFilamentWidthReading
    ∧ (extrude_factor_update_event cfg s epos).1.lastFilamentWidthReading
      = s.lastFilamentWidthReading
    ∧ (cmd_M405 s).1.lastFilamentWidthReading = s.lastFilamentWidthReading
    ∧ (cmd_M406 s).1.lastFilamentWidthReading = s.lastFilamentWidthReading
    ∧ (cmd_ClearFilamentArray s).1.lastFilamentWidthReading
      = s.lastFilamentWidthReading
    ∧ (cmd_M407 s).2 = s
    ∧ (s.last_hall_1_read_time = some t1 →
       s.last_hall_1_read_value = some v1 →
       ∀ s2 : State, hall_2_callback s t v = some s2 →
         s2.lastFilamentWidthReading
           = (if |t - t1| < MAX_SENSORS_TIME_DIFF then (v1 + v) / 2
              else s.lastFilamentWidthReading)) := by
  refine ⟨rfl, tick_lastReading cfg s epos, ?_, ?_, rfl, rfl, ?_⟩
  · unfold cmd_M405
    split <;> rfl
  · unfold cmd_M406
    split <;> rfl
  · intro ht1 hv1 s2 hs2
    unfold hall_2_callback at hs2
    rw [ht1] at hs2
    dsimp only at hs2
    by_cases hf : |t - t1| < MAX_SENSORS_TIME_DIFF
    · rw [if_pos hf, hv1] at hs2
      dsimp only at hs2
      rw [Option.some_inj] at hs2
      rw [← hs2, if_pos hf]
    · rw [if_neg hf] at hs2
      rw [Option.some_inj] at hs2
      rw [← hs2, if_neg hf]

/-- Witness for C10: hall-1 fires at time 0 with reading 1, hall-2 fires at
time 0.005 with reading 2; the pair is fresh, so the estimate becomes
(1 + 2) / 2. -/
theorem C10_witness :
    (hall_1_callback (hall_1_callback st0 0 1) (1/200) 2).lastFilamentWidthReading
      = (hall_1_callback st0 0 1).lastFilamentWidthReading
    ∧ ({ st0 with lastFilamentWidthReading := 3/2,
                  last_hall_1_read_time := some 0,
                  last_hall_1_read_value := some 1,
                  last_hall_2_read_time := some (1/200),
                  last_hall_2_reading := some 2 } :
          State).lastFilamentWidthReading
      = (if |(1/200 : ℚ) - 0| < MAX_SENSORS_TIME_DIFF then ((1 : ℚ) + 2) / 2
         else (hall_1_callback st0 0 1).lastFilamentWidthReading) := by
  have h := C10_single_writer cfg0 (hall_1_callback st0 0 1) (1/200) 2 0 0 1
  refine ⟨h.1, h.2.2.2.2.2.2 (by rfl) (by rfl) _ ?_⟩
  norm_num [hall_2_callback, hall_1_callback, st0, MAX_SENSORS_TIME_DIFF,
    abs_lt]

end FD2HS
